import Mathlib

/-!
Shallow embedding of `src/peft/tuners/vera/__init__.py`.

The module eagerly imports five symbols from collaborator modules, publishes
them through `__all__`, and defines a module-level `__getattr__` fallback that
conditionally imports the optional `.bnb` collaborator module when one of the
two quantization-aware symbols is requested and the matching backend
capability predicate holds; otherwise it raises
`AttributeError(f"module {__name__} has no attribute {name}")`.

The two capability predicates (`is_bnb_available`, `is_bnb_4bit_available`)
come from a collaborator (`peft.import_utils`) and are opaque booleans here:
we quantify over their possible values with an `Env` record.
-/

namespace Vera

/-- The Python objects this initializer can hand out: the five eagerly
imported symbols plus the two optional quantization-aware symbols supplied by
the `.bnb` collaborator module. -/
inductive PyObj where
  | VeraConfig
  | VeraLayer
  | VeraLinear
  | VeraModel
  | VeraQuantLinear
  | VeraLinear8bitLt
  | VeraLinear4bit
  deriving DecidableEq, Repr

/-- Runtime environment: the values of the two backend capability predicates
imported from `peft.import_utils`. -/
structure Env where
  is_bnb_available : Bool
  is_bnb_4bit_available : Bool
  deriving DecidableEq, Repr

/-- The module's runtime name, `__name__`, as used in the error f-string. -/
def moduleName : String := "peft.tuners.vera"

/-- The modules imported at module load time (the top-level `import`
statements of the file): the import-utilities collaborator and the four
sibling collaborator modules.  The optional `.bnb` module is not among
them. -/
def loadTimeImports : List String :=
  ["peft.import_utils", ".config", ".gptq", ".layer", ".model"]

/-- The eager export list, exactly as written:
`__all__ = ["VeraConfig", "VeraLayer", "VeraModel", "VeraLinear", "VeraQuantLinear"]`. -/
def allList : List String :=
  ["VeraConfig", "VeraLayer", "VeraModel", "VeraLinear", "VeraQuantLinear"]

/-- The eagerly bound module attributes, produced by the top-level
`from ... import ...` statements: `VeraConfig` from `.config`,
`VeraQuantLinear` from `.gptq`, `VeraLayer` and `VeraLinear` from `.layer`,
`VeraModel` from `.model`. -/
def eagerAttrs (name : String) : Option PyObj :=
  if name == "VeraConfig" then some .VeraConfig
  else if name == "VeraQuantLinear" then some .VeraQuantLinear
  else if name == "VeraLayer" then some .VeraLayer
  else if name == "VeraLinear" then some .VeraLinear
  else if name == "VeraModel" then some .VeraModel
  else none

/-- The AttributeError message raised by the fallback:
`f"module {__name__} has no attribute {name}"`. -/
def attrErrorMsg (name : String) : String :=
  "module " ++ moduleName ++ " has no attribute " ++ name

/-- Outcome of one call to the `__getattr__` fallback: the returned object or
the raised AttributeError message, plus whether the call executed an
`from .bnb import ...` statement. -/
structure FallbackOutcome where
  result : Except String PyObj
  importedBnb : Bool
  deriving Repr

/-- The module-level `__getattr__` fallback, translated clause by clause:

```
def __getattr__(name):
    if (name == "VeraLinear8bitLt") and is_bnb_available():
        from .bnb import VeraLinear8bitLt
        return VeraLinear8bitLt
    if (name == "VeraLinear4bit") and is_bnb_4bit_available():
        from .bnb import VeraLinear4bit
        return VeraLinear4bit
    raise AttributeError(f"module ... has no attribute ...")
```
-/
def vera_getattr (env : Env) (name : String) : FallbackOutcome :=
  if (name == "VeraLinear8bitLt") && env.is_bnb_available then
    { result := .ok .VeraLinear8bitLt, importedBnb := true }
  else if (name == "VeraLinear4bit") && env.is_bnb_4bit_available then
    { result := .ok .VeraLinear4bit, importedBnb := true }
  else
    { result := .error (attrErrorMsg name), importedBnb := false }

/-- Outcome of a full attribute access on the module: Python first consults
the module's own (eagerly bound) attributes and only invokes the module-level
`__getattr__` fallback when normal lookup fails. -/
structure AccessOutcome where
  result : Except String PyObj
  usedFallback : Bool
  importedBnb : Bool
  deriving Repr

/-- Full attribute-access semantics for the module: eager attributes resolve
directly; anything else goes through the `__getattr__` fallback. -/
def moduleAccess (env : Env) (name : String) : AccessOutcome :=
  match eagerAttrs name with
  | some obj => { result := .ok obj, usedFallback := false, importedBnb := false }
  | none =>
      let fo := vera_getattr env name
      { result := fo.result, usedFallback := true, importedBnb := fo.importedBnb }

/-- Module-level state: the symbol registry `__all__`.  It is the only
module-level binding any claim treats as state. -/
structure ModuleState where
  all : List String
  deriving DecidableEq, Repr

/-- The state the module is in right after initialization. -/
def initState : ModuleState := { all := allList }

/-- One attribute access as a state transition: the body of `__getattr__`
contains no assignment to any module-level binding, so the state component
is passed through unchanged. -/
def accessStep (st : ModuleState) (env : Env) (name : String) :
    AccessOutcome × ModuleState :=
  (moduleAccess env name, st)

/-- Substring containment at the character level: `sub` occurs contiguously
inside `s`. -/
def containsSubstr (s sub : String) : Prop :=
  ∃ a b, s.data = a ++ sub.data ++ b

end Vera

namespace Vera

/-- C1: for the requested name "VeraLinear8bitLt", when `is_bnb_available`
is true the fallback imports the bnb collaborator module and returns the
`VeraLinear8bitLt` type; when it is false the fallback falls through to the
terminal unknown-attribute error with the generic message and performs no
bnb import. -/
theorem fallback_8bit_gated (env : Env) :
    (env.is_bnb_available = true →
      vera_getattr env "VeraLinear8bitLt" =
        { result := .ok .VeraLinear8bitLt, importedBnb := true }) ∧
    (env.is_bnb_available = false →
      vera_getattr env "VeraLinear8bitLt" =
        { result := .error (attrErrorMsg "VeraLinear8bitLt"),
          importedBnb := false }) := by
  obtain ⟨b8, b4⟩ := env
  constructor <;> intro h <;> subst h <;> rfl

/-- Witness for C1 at both truth values of the 8-bit predicate. -/
theorem fallback_8bit_gated_witness :
    vera_getattr ⟨true, false⟩ "VeraLinear8bitLt" =
      { result := .ok .VeraLinear8bitLt, importedBnb := true } ∧
    vera_getattr ⟨false, true⟩ "VeraLinear8bitLt" =
      { result := .error (attrErrorMsg "VeraLinear8bitLt"),
        importedBnb := false } :=
  ⟨(fallback_8bit_gated ⟨true, false⟩).1 rfl,
   (fallback_8bit_gated ⟨false, true⟩).2 rfl⟩

/-- C2: every requested name outside {"VeraLinear8bitLt", "VeraLinear4bit"}
makes the fallback raise the unknown-attribute error, whatever the two
capability predicates evaluate to. -/
theorem fallback_unknown_name_errors (env : Env) (name : String)
    (h8 : name ≠ "VeraLinear8bitLt") (h4 : name ≠ "VeraLinear4bit") :
    vera_getattr env name =
      { result := .error (attrErrorMsg name), importedBnb := false } := by
  simp [vera_getattr, h8, h4]

/-- Witness for C2 at the name "NotARealSymbol" with both predicates true. -/
theorem fallback_unknown_name_errors_witness :
    vera_getattr ⟨true, true⟩ "NotARealSymbol" =
      { result := .error (attrErrorMsg "NotARealSymbol"),
        importedBnb := false } :=
  fallback_unknown_name_errors ⟨true, true⟩ "NotARealSymbol"
    (by decide) (by decide)

/-- C3: every name in the eager export list resolves on module attribute
access to an object without invoking the `__getattr__` fallback. -/
theorem eager_names_resolve_without_fallback (env : Env) (name : String)
    (h : name ∈ allList) :
    (moduleAccess env name).usedFallback = false ∧
    ∃ obj, (moduleAccess env name).result = Except.ok obj := by
  fin_cases h <;> exact ⟨rfl, _, rfl⟩

/-- Witness for C3 at the name "VeraConfig" with no backend available. -/
theorem eager_names_resolve_without_fallback_witness :
    (moduleAccess ⟨false, false⟩ "VeraConfig").usedFallback = false ∧
    ∃ obj, (moduleAccess ⟨false, false⟩ "VeraConfig").result = Except.ok obj :=
  eager_names_resolve_without_fallback ⟨false, false⟩ "VeraConfig" (by decide)

/-- C4: for the requested name "VeraLinear4bit", when `is_bnb_4bit_available`
is true the fallback imports the bnb collaborator module and returns the
`VeraLinear4bit` type; when it is false the fallback raises the
unknown-attribute error and performs no bnb import. -/
theorem fallback_4bit_gated (env : Env) :
    (env.is_bnb_4bit_available = true →
      vera_getattr env "VeraLinear4bit" =
        { result := .ok .VeraLinear4bit, importedBnb := true }) ∧
    (env.is_bnb_4bit_available = false →
      vera_getattr env "VeraLinear4bit" =
        { result := .error (attrErrorMsg "VeraLinear4bit"),
          importedBnb := false }) := by
  obtain ⟨b8, b4⟩ := env
  constructor <;> intro h <;> subst h <;> rfl

/-- Witness for C4 at both truth values of the 4-bit predicate. -/
theorem fallback_4bit_gated_witness :
    vera_getattr ⟨false, true⟩ "VeraLinear4bit" =
      { result := .ok .VeraLinear4bit, importedBnb := true } ∧
    vera_getattr ⟨true, false⟩ "VeraLinear4bit" =
      { result := .error (attrErrorMsg "VeraLinear4bit"),
        importedBnb := false } :=
  ⟨(fallback_4bit_gated ⟨false, true⟩).1 rfl,
   (fallback_4bit_gated ⟨true, false⟩).2 rfl⟩

/-- C5: whenever the fallback raises, the AttributeError message contains
both the module's name and the requested attribute name as substrings. -/
theorem error_message_names_module_and_attr (env : Env) (name msg : String)
    (h : (vera_getattr env name).result = Except.error msg) :
    containsSubstr msg moduleName ∧ containsSubstr msg name := by
  have hmsg : msg = attrErrorMsg name := by
    unfold vera_getattr at h
    split at h
    · simp_all
    · split at h <;> simp_all
  subst hmsg
  refine ⟨⟨"module ".data, (" has no attribute " ++ name).data, ?_⟩,
          ⟨("module " ++ moduleName ++ " has no attribute ").data, [], ?_⟩⟩ <;>
    simp [attrErrorMsg, String.data_append]

/-- Witness for C5 at the name "NotARealSymbol" with no backend available. -/
theorem error_message_names_module_and_attr_witness :
    containsSubstr (attrErrorMsg "NotARealSymbol") moduleName ∧
    containsSubstr (attrErrorMsg "NotARealSymbol") "NotARealSymbol" :=
  error_message_names_module_and_attr ⟨false, false⟩ "NotARealSymbol"
    (attrErrorMsg "NotARealSymbol") rfl

/-- C6: the optional `.bnb` collaborator module is not imported at module
load time, and a fallback call imports it exactly when the call succeeds in
resolving a deferred symbol. -/
theorem bnb_import_only_on_success :
    ".bnb" ∉ loadTimeImports ∧
    ∀ (env : Env) (name : String),
      (vera_getattr env name).importedBnb = true ↔
        ∃ obj, (vera_getattr env name).result = Except.ok obj := by
  refine ⟨by decide, fun env name => ?_⟩
  unfold vera_getattr
  split
  · simp
  · split <;> simp

/-- C7: the fallback is deterministic and stateless per call: two calls that
observe the same predicate values produce the same outcome, and no access
mutates the module-level state (the registry). -/
theorem fallback_deterministic_stateless (env1 env2 : Env)
    (st : ModuleState) (name : String)
    (h8 : env1.is_bnb_available = env2.is_bnb_available)
    (h4 : env1.is_bnb_4bit_available = env2.is_bnb_4bit_available) :
    vera_getattr env1 name = vera_getattr env2 name ∧
    (accessStep st env1 name).2 = st := by
  obtain ⟨a1, b1⟩ := env1
  obtain ⟨a2, b2⟩ := env2
  cases h8
  cases h4
  exact ⟨rfl, rfl⟩

/-- Witness for C7 at two equal environments and the initial state. -/
theorem fallback_deterministic_stateless_witness :
    vera_getattr ⟨true, false⟩ "VeraLinear8bitLt" =
      vera_getattr ⟨true, false⟩ "VeraLinear8bitLt" ∧
    (accessStep initState ⟨true, false⟩ "VeraLinear8bitLt").2 = initState :=
  fallback_deterministic_stateless ⟨true, false⟩ ⟨true, false⟩ initState
    "VeraLinear8bitLt" rfl rfl

/-- C8: the eager registry is fixed at initialization to exactly the five
names VeraConfig, VeraLayer, VeraLinear, VeraModel, VeraQuantLinear, and no
attribute access mutates it. -/
theorem registry_fixed_five_names :
    initState.all = allList ∧
    allList.length = 5 ∧
    allList.Nodup ∧
    (∀ s, s ∈ allList ↔
      s = "VeraConfig" ∨ s = "VeraLayer" ∨ s = "VeraLinear" ∨
      s = "VeraModel" ∨ s = "VeraQuantLinear") ∧
    ∀ (st : ModuleState) (env : Env) (name : String),
      (accessStep st env name).2 = st := by
  refine ⟨rfl, rfl, by decide, fun s => ?_, fun st env name => rfl⟩
  simp only [allList, List.mem_cons, List.not_mem_nil, or_false]
  tauto

/-- C9: noninterference of the two capability predicates: the outcome for
"VeraLinear8bitLt" does not depend on `is_bnb_4bit_available`, and the
outcome for "VeraLinear4bit" does not depend on `is_bnb_available`. -/
theorem optional_symbols_noninterference :
    (∀ b o1 o2 : Bool,
      vera_getattr ⟨b, o1⟩ "VeraLinear8bitLt" =
        vera_getattr ⟨b, o2⟩ "VeraLinear8bitLt") ∧
    (∀ b o1 o2 : Bool,
      vera_getattr ⟨o1, b⟩ "VeraLinear4bit" =
        vera_getattr ⟨o2, b⟩ "VeraLinear4bit") := by
  constructor <;> intro b o1 o2 <;> cases b <;> rfl

/-- C10: neither "VeraLinear8bitLt" nor "VeraLinear4bit" is ever a member of
the eager export list `__all__`, whatever the backend availability. -/
theorem optional_names_not_in_all :
    "VeraLinear8bitLt" ∉ allList ∧ "VeraLinear4bit" ∉ allList := by
  decide

end Vera
